import Mathlib

/-!
Verification of the price-alert evaluation and delivery pipeline of the
Real-Time Competitor Strategy Tracker repository.

The admin UI components (`AlertsList` in the admin alerts page,
`AlertsBadge.jsx`, `AlertSettings.jsx`) are embedded directly from their
JavaScript source.  The back-end pipeline (rule evaluator, deduplicator,
notifier, acknowledge endpoint) is not present in the source tree; those
parts are modelled from the specification, and each such definition says so
in its doc comment.
-/

namespace AlertPipeline

/-- Status of an alert record: JS `status` field, `none` models an absent
field and `some s` a present string value. -/
abbrev JSStatus := Option String

/-- JS truthiness of an optional string: `undefined`/missing and the empty
string are falsy, every other string is truthy. -/
def strTruthy : JSStatus → Bool
  | none => false
  | some s => s ≠ ""

/-- An alert document as the admin UI receives it from `/admin/alerts`:
only the fields the badge logic inspects. -/
structure AlertDoc where
  id : Nat
  status : JSStatus
deriving Repr, DecidableEq

/-- From `AlertsBadge.jsx` (`load`): the unread count is
`docs.filter(d => !d.status || d.status !== 'acknowledged').length`. -/
def unreadCount (docs : List AlertDoc) : Nat :=
  (docs.filter (fun d => !strTruthy d.status || d.status ≠ some "acknowledged")).length

/-- From the admin alerts page (`AlertsList` status cell): renders
`a.status || 'open'`. -/
def statusCell (d : AlertDoc) : String :=
  if strTruthy d.status then (d.status.getD "") else "open"

/-- Notification channel flags, as in the `notify_channels` object. -/
structure NotifyChannels where
  slack : Bool
  email : Bool
deriving Repr, DecidableEq

/-- A quiet-hours window, start and end as minutes of the local day. -/
structure QuietHours where
  start : Nat
  stop : Nat
deriving Repr, DecidableEq

/-- The alert-policy settings document, as both the UI fallback literal and
the spec's AlertPolicy describe it. -/
structure AlertSettingsDoc where
  enabled : Bool
  threshold_percent : ℚ
  threshold_absolute : ℚ
  min_price_for_alert : ℚ
  notify_channels : NotifyChannels
  quiet_hours : Option QuietHours
deriving Repr, DecidableEq

/-- From the admin alerts page (`loadSettings` catch branch) and
`AlertSettings.jsx` (load effect catch branch), both of which set the same
literal when `/admin/alerts/settings` cannot be fetched:
`{ enabled: true, notify_channels: { slack: true, email: false },
   threshold_percent: 20, threshold_absolute: 500,
   min_price_for_alert: 100, quiet_hours: null }`. -/
def fallbackSettings : AlertSettingsDoc :=
  { enabled := true
    threshold_percent := 20
    threshold_absolute := 500
    min_price_for_alert := 100
    notify_channels := { slack := true, email := false }
    quiet_hours := none }

/-- From the admin alerts page (`loadSettings`): on a successful fetch the
response document is used, otherwise the catch branch installs
`fallbackSettings`.  `none` models a failed fetch. -/
def loadSettings (resp : Option AlertSettingsDoc) : AlertSettingsDoc :=
  match resp with
  | some d => d
  | none => fallbackSettings

/-! ### JavaScript value model for `formatPrice` -/

/-- The JavaScript values the price formatter can receive. -/
inductive JSValue where
  | vnull
  | vundef
  | vnum (q : ℚ)
  | vstr (s : String)
deriving DecidableEq, Repr

/-- JS `Number(...)` on the values above; `none` models `NaN`.  String
parsing is modelled for whitespace-empty strings (which coerce to `0`) and
integer literals; other strings coerce to `NaN`. -/
def jsNumber : JSValue → Option ℚ
  | .vnull => some 0
  | .vundef => none
  | .vnum q => some q
  | .vstr s => if s.trim = "" then some 0 else (s.trim.toInt?).map (fun n => (n : ℚ))

/-- JS `String(...)` on the values above. -/
def jsString : JSValue → String
  | .vnull => "null"
  | .vundef => "undefined"
  | .vnum q => toString q
  | .vstr s => s

/-- The `Intl.NumberFormat('en-IN', {currency: 'INR'})` output: a
rupee-sign-prefixed rendering of the number, `₹NaN` for `NaN`.  Digit
grouping and rounding are abstracted; only the prefix matters here. -/
def formatINR : Option ℚ → String
  | none => "₹NaN"
  | some q => "₹" ++ toString q

/-- The `try` branch of `formatPrice`: building the fixed-option formatter
and calling `format(Number(v))` throws for none of the value forms above,
so the attempt always yields a string. -/
def tryFormatINR (v : JSValue) : Option String :=
  some (formatINR (jsNumber v))

/-- From the admin alerts page and `AlertsBadge.jsx` (`formatPrice`):
return an em dash for `null`/`undefined`, otherwise try currency
formatting and fall back to `String(v)` if the attempt fails. -/
def formatPrice (v : JSValue) : String :=
  if v = JSValue.vnull ∨ v = JSValue.vundef then "—"
  else
    match tryFormatINR v with
    | some s => s
    | none => jsString v

/-! ### Settings-save payload built by the admin alerts page -/

/-- The value held by one numeric settings form field: a number, `NaN`,
the empty string an emptied input stores, or a missing/null field. -/
inductive JSField where
  | num (q : ℚ)
  | nan
  | empty
  | absent
deriving DecidableEq, Repr

/-- JS `Number(x || 0)`: falsy inputs (`NaN`, `''`, `null`/`undefined`,
and `0` itself) are replaced by `0` before coercion; a nonzero number
passes through, and `Number(0) = 0`, so the numeric case is the identity. -/
def numOrZero : JSField → ℚ
  | .num q => q
  | .nan => 0
  | .empty => 0
  | .absent => 0

/-- The React state of the settings editor that feeds the save payload. -/
structure SettingsFormState where
  threshold_percent : JSField
  threshold_absolute : JSField
  min_price_for_alert : JSField
  notify_channels : NotifyChannels
  quiet_hours : Option QuietHours
deriving DecidableEq, Repr

/-- The JSON body PUT to `/admin/alerts/settings`.  `enabled = none`
models the absence of an `enabled` key in the object. -/
structure SavePayload where
  threshold_percent : ℚ
  threshold_absolute : ℚ
  min_price_for_alert : ℚ
  notify_channels : NotifyChannels
  quiet_hours : Option QuietHours
  enabled : Option Bool
deriving DecidableEq, Repr

/-- From the admin alerts page (Save onClick): the payload coerces the
three numeric fields with `Number(x || 0)`, copies the channel booleans
and quiet hours, and sets no `enabled` key. -/
def buildSavePayload (s : SettingsFormState) : SavePayload :=
  { threshold_percent := numOrZero s.threshold_percent
    threshold_absolute := numOrZero s.threshold_absolute
    min_price_for_alert := numOrZero s.min_price_for_alert
    notify_channels := s.notify_channels
    quiet_hours := s.quiet_hours
    enabled := none }

/-- Modelled from the spec: the settings PUT endpoint is not in the source
tree; writes fully replace the stored policy document (last-writer-wins,
no merge), so after a write the stored document is exactly the payload,
with exactly the payload's keys.  `SavePayload` doubles as the stored
document shape, its optional `enabled` modelling presence of the key. -/
def putSettings (_old : SavePayload) (p : SavePayload) : SavePayload :=
  p

/-- A concrete settings-editor state: the default numbers typed into the
three fields. -/
def exampleFormState : SettingsFormState :=
  { threshold_percent := .num 20
    threshold_absolute := .num 500
    min_price_for_alert := .num 100
    notify_channels := { slack := true, email := false }
    quiet_hours := none }

/-! ### The alert pipeline.

The back-end rule evaluator, deduplicator, notifier and acknowledge
endpoint are not in the source tree (only their UI callers are); the
definitions below are modelled from the specification. -/

/-- Reason a trigger fired, as stored on the alert record. -/
inductive TriggerReason where
  | percent_threshold
  | absolute_threshold
  | both
deriving DecidableEq, Repr

/-- Outcome of a triggering evaluation. -/
structure TriggerResult where
  percent_change : ℚ
  absolute_change : ℚ
  reason : TriggerReason
deriving DecidableEq, Repr

/-- Modelled from the spec: the Rule Evaluator, which is not in the
source tree.  No trigger when the new price is unparseable, below the
minimum price, the policy is disabled, there is no baseline, or the
baseline is zero; otherwise compute signed absolute and percent change
and trigger when either absolute value meets its threshold, recording
which of the two conditions held. -/
def evaluate (pol : AlertSettingsDoc) (baseline : Option ℚ) (newPrice : Option ℚ) :
    Option TriggerResult :=
  match newPrice with
  | none => none
  | some np =>
    if !pol.enabled then none
    else if np < pol.min_price_for_alert then none
    else
      match baseline with
      | none => none
      | some bp =>
        if bp = 0 then none
        else
          let absc := np - bp
          let pct := absc / bp * 100
          if |pct| ≥ pol.threshold_percent ∧ |absc| ≥ pol.threshold_absolute then
            some ⟨pct, absc, .both⟩
          else if |pct| ≥ pol.threshold_percent then
            some ⟨pct, absc, .percent_threshold⟩
          else if |absc| ≥ pol.threshold_absolute then
            some ⟨pct, absc, .absolute_threshold⟩
          else none

/-- The trigger result of the spec's worked example: baseline 1000, new
price 750 against the default thresholds. -/
def exampleResult : TriggerResult :=
  { percent_change := -25, absolute_change := -250, reason := .percent_threshold }

/-- An alert document in the Alert Store; its status field holds the
string values the store uses. -/
structure StoredAlert where
  id : Nat
  new_price : ℚ
  percent_change : ℚ
  absolute_change : ℚ
  triggered_at : Nat
  status : String
deriving DecidableEq, Repr

/-- A scraped observation for one product: a possibly unparseable price
and its observation time. -/
structure PriceObservation where
  price : Option ℚ
  observed_at : Nat
deriving DecidableEq, Repr

/-- Alert Store plus baseline state for one product: the stored current
price, the alert records, and the next fresh alert id. -/
structure PipelineState where
  baseline : Option ℚ
  alerts : List StoredAlert
  nextId : Nat
deriving DecidableEq, Repr

/-- The open alerts of a state. -/
def openAlerts (st : PipelineState) : List StoredAlert :=
  st.alerts.filter (fun a => a.status = "open")

/-- Number of open alerts among a list of records. -/
def openCount (l : List StoredAlert) : Nat :=
  (l.filter (fun a => a.status = "open")).length

/-- Modelled from the spec: the refresh half of the Alert Deduplicator —
the existing open alert's new price, percent change, absolute change and
trigger time are overwritten with the latest data; its status stays as it
is. -/
def refreshFirstOpen (r : TriggerResult) (np : ℚ) (t : Nat) :
    List StoredAlert → List StoredAlert
  | [] => []
  | a :: rest =>
    if a.status = "open" then
      { a with new_price := np, percent_change := r.percent_change,
               absolute_change := r.absolute_change, triggered_at := t } :: rest
    else
      a :: refreshFirstOpen r np t rest

/-- Modelled from the spec: the Alert Deduplicator — if an open alert
already exists the qualifying change refreshes it instead of creating a
second record; otherwise a fresh alert is created with status open. -/
def upsertOpenAlert (st : PipelineState) (r : TriggerResult) (np : ℚ) (t : Nat) :
    PipelineState :=
  if st.alerts.any (fun a => a.status = "open") then
    { st with alerts := refreshFirstOpen r np t st.alerts }
  else
    { st with
        alerts := st.alerts ++
          [{ id := st.nextId, new_price := np, percent_change := r.percent_change,
             absolute_change := r.absolute_change, triggered_at := t, status := "open" }],
        nextId := st.nextId + 1 }

/-- Modelled from the spec: the quiet-hours test on a local time of day
(minutes); a window wrapping past midnight covers the two outer
segments. -/
def inQuietHours (qh : Option QuietHours) (now : Nat) : Bool :=
  match qh with
  | none => false
  | some w =>
    if w.start ≤ w.stop then decide (w.start ≤ now ∧ now < w.stop)
    else decide (w.start ≤ now ∨ now < w.stop)

/-- Modelled from the spec: the Notifier's channel selection — nothing is
attempted during quiet hours, otherwise each enabled channel is attempted
independently. -/
def channelsToNotify (pol : AlertSettingsDoc) (tod : Nat) : List String :=
  if inQuietHours pol.quiet_hours tod then []
  else
    (if pol.notify_channels.slack then ["slack"] else []) ++
      (if pol.notify_channels.email then ["email"] else [])

/-- Modelled from the spec: one observation through Baseline Resolver →
Rule Evaluator → Deduplicator.  A malformed (unparseable-price)
observation is skipped; otherwise the stored current price is updated
after evaluation regardless of the trigger outcome. -/
def processObs (pol : AlertSettingsDoc) (st : PipelineState) (o : PriceObservation) :
    PipelineState :=
  match o.price with
  | none => st
  | some np =>
    match evaluate pol st.baseline (some np) with
    | none => { st with baseline := some np }
    | some r => { upsertOpenAlert st r np o.observed_at with baseline := some np }

/-- Modelled from the spec: the full per-observation data flow — the
Alert Store write of `processObs` paired with the Notifier dispatch,
which lists the channels actually attempted at local time `tod`. -/
def processObsNotify (pol : AlertSettingsDoc) (tod : Nat) (st : PipelineState)
    (o : PriceObservation) : PipelineState × List String :=
  (processObs pol st o,
    match o.price with
    | none => []
    | some np =>
      match evaluate pol st.baseline (some np) with
      | none => []
      | some _ => channelsToNotify pol tod)

/-- Ordering of observations by observation time. -/
def obsLE (a b : PriceObservation) : Prop :=
  a.observed_at ≤ b.observed_at

instance : DecidableRel obsLE :=
  fun a b => inferInstanceAs (Decidable (a.observed_at ≤ b.observed_at))

/-- Modelled from the spec: batch processing sorts one product's
observations by observation time before evaluating them in order. -/
def processBatch (pol : AlertSettingsDoc) (st : PipelineState)
    (obss : List PriceObservation) : PipelineState :=
  (obss.insertionSort obsLE).foldl (processObs pol) st

/-- Every observation of the list, processed in order, triggers the
evaluator against the then-current baseline. -/
def allQualify (pol : AlertSettingsDoc) : PipelineState → List PriceObservation → Bool
  | _, [] => true
  | st, o :: rest =>
    (match o.price with
     | none => false
     | some np => (evaluate pol st.baseline (some np)).isSome)
      && allQualify pol (processObs pol st o) rest

/-- From `AlertsBadge.jsx` and the admin alerts page (`ack` success
path): the client marks alert `id` acknowledged in place, mapping
`a._id === id` entries to a copy with status acknowledged. -/
def ackLocal (id : Nat) (alerts : List StoredAlert) : List StoredAlert :=
  alerts.map (fun a => if a.id = id then { a with status := "acknowledged" } else a)

/-- The policy used by the quiet-hours scenario: the default policy with
an all-day quiet window. -/
def quietPolicy : AlertSettingsDoc :=
  { fallbackSettings with quiet_hours := some ⟨0, 1440⟩ }

/-- Modelled from the spec: the acknowledge endpoint — sets the matching
alert's status to acknowledged; acknowledging an already-acknowledged
alert writes the same value again. -/
def ackStore (id : Nat) (st : PipelineState) : PipelineState :=
  { st with
      alerts := st.alerts.map
        (fun a => if a.id = id then { a with status := "acknowledged" } else a) }

end AlertPipeline

namespace AlertPipeline

/-! ### C1: fallback policy when settings cannot be fetched -/

/-- C1 counterexample: the claim says the fallback policy has alerts
disabled; the code's fallback literal has `enabled: true`. -/
theorem c1_fallback_not_disabled : ¬ ((loadSettings none).enabled = false) := by
  decide

/-- C1 (amended): when the settings endpoint fails, the UI falls back to the
fixed default policy `{enabled: true, threshold_percent: 20,
threshold_absolute: 500, min_price_for_alert: 100, slack on, email off,
no quiet hours}` — a fixed conservative literal, never an arbitrary
configuration — and a successful fetch is used verbatim. -/
theorem c1_fallback_is_fixed_default :
    loadSettings none =
      { enabled := true
        threshold_percent := 20
        threshold_absolute := 500
        min_price_for_alert := 100
        notify_channels := { slack := true, email := false }
        quiet_hours := none } ∧
    ∀ d : AlertSettingsDoc, loadSettings (some d) = d := by
  exact ⟨rfl, fun d => rfl⟩

/-! ### C8: badge unread count and status rendering -/

/-- C8: the badge's unread count equals the number of documents whose
status is absent or differs from acknowledged; a document with no status
field is unread, and the alerts table renders its status as open. -/
theorem c8_unread_count_semantics :
    (∀ docs : List AlertDoc,
      unreadCount docs =
        (docs.filter (fun d => d.status = none || d.status != some "acknowledged")).length) ∧
    unreadCount [⟨0, none⟩] = 1 ∧
    statusCell ⟨0, none⟩ = "open" := by
  refine ⟨fun docs => ?_, by decide, by decide⟩
  unfold unreadCount
  congr 1
  apply List.filter_congr
  intro d _
  cases hs : d.status with
  | none => simp [strTruthy]
  | some s =>
    by_cases hsa : s = "acknowledged"
    · subst hsa; simp [strTruthy]
    · simp [strTruthy, hsa]

/-! ### C9: settings-save payload shape -/

/-- C9 counterexample: the claim says saving from the alerts page leaves
the stored enabled flag unchanged; under the spec's full-replacement
write, saving the page's payload over a stored document whose enabled key
is true yields a stored document whose enabled key is gone, not true. -/
theorem c9_enabled_not_preserved :
    ¬(putSettings
        { threshold_percent := 20, threshold_absolute := 500,
          min_price_for_alert := 100,
          notify_channels := { slack := true, email := false },
          quiet_hours := none, enabled := some true }
        (buildSavePayload exampleFormState)).enabled = some true := by
  decide

/-- C9 (amended): the save payload always carries the three numeric
fields coerced by Number applied to the field or zero — absent, empty,
null and NaN inputs become zero — and never carries an enabled key; and
because settings writes fully replace the stored policy document, saving
from this page stores a document with no enabled key rather than
preserving the previous enabled flag. -/
theorem c9_save_payload_shape :
    (∀ s : SettingsFormState,
      (buildSavePayload s).enabled = none ∧
      (buildSavePayload s).threshold_percent = numOrZero s.threshold_percent ∧
      (buildSavePayload s).threshold_absolute = numOrZero s.threshold_absolute ∧
      (buildSavePayload s).min_price_for_alert = numOrZero s.min_price_for_alert) ∧
    numOrZero .absent = 0 ∧ numOrZero .empty = 0 ∧ numOrZero .nan = 0 ∧
    (∀ (old : SavePayload) (p : SavePayload), putSettings old p = p) ∧
    (∀ (s : SettingsFormState) (old : SavePayload),
      (putSettings old (buildSavePayload s)).enabled = none) := by
  exact ⟨fun s => ⟨rfl, rfl, rfl, rfl⟩, rfl, rfl, rfl, fun old p => rfl,
    fun s old => rfl⟩

/-! ### C2: OR semantics of the thresholds -/

/-- C2: for an enabled policy, a parseable new price at least the minimum
price, and a non-zero baseline, the evaluator triggers exactly when the
absolute percent change meets the percent threshold or the absolute
change meets the absolute threshold. -/
theorem c2_threshold_or_semantics (pol : AlertSettingsDoc) (bp np : ℚ)
    (hen : pol.enabled = true) (hmin : pol.min_price_for_alert ≤ np) (hbp : bp ≠ 0) :
    (evaluate pol (some bp) (some np)).isSome = true ↔
      |(np - bp) / bp * 100| ≥ pol.threshold_percent ∨
        |np - bp| ≥ pol.threshold_absolute := by
  simp only [evaluate, hen, Bool.not_true, Bool.false_eq_true, if_false,
    if_neg (not_lt.mpr hmin), if_neg hbp]
  split_ifs with h1 h2 h3
  · simpa using Or.inl h1.1
  · simpa using Or.inl h2
  · simpa using Or.inr h3
  · simp only [Option.isSome_none, Bool.false_eq_true, false_iff, not_or, not_le, ge_iff_le]
    exact ⟨not_le.mp h2, not_le.mp h3⟩

/-- C2 witness: the fallback policy (enabled, thresholds 20 percent and
500, minimum price 100), baseline 1000 and new price 750 satisfy the
hypotheses, and the equivalence holds there. -/
theorem c2_threshold_or_semantics_witness :
    (evaluate fallbackSettings (some 1000) (some 750)).isSome = true ↔
      |((750 : ℚ) - 1000) / 1000 * 100| ≥ fallbackSettings.threshold_percent ∨
        |(750 : ℚ) - 1000| ≥ fallbackSettings.threshold_absolute :=
  c2_threshold_or_semantics fallbackSettings 1000 750 rfl
    (by norm_num [fallbackSettings]) (by norm_num)

/-! ### C7: trigger reason selection -/

/-- C7: on every triggering evaluation the stored changes are the signed
absolute and percent change, and the reason is both exactly when the two
threshold conditions independently hold, otherwise the single condition
that holds; and in the spec's example (baseline 1000, new price 750,
thresholds 20 percent and 500, minimum 100) the evaluation yields percent
change -25, absolute change -250 and reason percent_threshold. -/
theorem c7_trigger_reason (pol : AlertSettingsDoc) (bp np : ℚ) (r : TriggerResult)
    (h : evaluate pol (some bp) (some np) = some r) :
    (r.percent_change = (np - bp) / bp * 100 ∧
      r.absolute_change = np - bp ∧
      (r.reason = .both ↔
        (|r.percent_change| ≥ pol.threshold_percent ∧
          |r.absolute_change| ≥ pol.threshold_absolute)) ∧
      (r.reason = .percent_threshold ↔
        (|r.percent_change| ≥ pol.threshold_percent ∧
          ¬|r.absolute_change| ≥ pol.threshold_absolute)) ∧
      (r.reason = .absolute_threshold ↔
        (¬|r.percent_change| ≥ pol.threshold_percent ∧
          |r.absolute_change| ≥ pol.threshold_absolute))) ∧
    evaluate fallbackSettings (some 1000) (some 750) =
      some { percent_change := -25, absolute_change := -250,
             reason := .percent_threshold } := by
  constructor
  · simp only [evaluate] at h
    split_ifs at h with h1 h2 h3 h4 h5 h6 <;>
      simp only [Option.some.injEq] at h <;>
      (subst h; refine ⟨rfl, rfl, ?_, ?_, ?_⟩ <;> simp_all)
  · norm_num [evaluate, fallbackSettings]

/-- C7 witness: the general part instantiated at the spec's example
inputs, the triggering hypothesis discharged by evaluation. -/
theorem c7_trigger_reason_witness :
    (exampleResult.percent_change = ((750 : ℚ) - 1000) / 1000 * 100 ∧
      exampleResult.absolute_change = (750 : ℚ) - 1000 ∧
      (exampleResult.reason = .both ↔
        (|exampleResult.percent_change| ≥ fallbackSettings.threshold_percent ∧
          |exampleResult.absolute_change| ≥ fallbackSettings.threshold_absolute)) ∧
      (exampleResult.reason = .percent_threshold ↔
        (|exampleResult.percent_change| ≥ fallbackSettings.threshold_percent ∧
          ¬|exampleResult.absolute_change| ≥ fallbackSettings.threshold_absolute)) ∧
      (exampleResult.reason = .absolute_threshold ↔
        (¬|exampleResult.percent_change| ≥ fallbackSettings.threshold_percent ∧
          |exampleResult.absolute_change| ≥ fallbackSettings.threshold_absolute))) ∧
    evaluate fallbackSettings (some 1000) (some 750) =
      some { percent_change := -25, absolute_change := -250,
             reason := .percent_threshold } :=
  c7_trigger_reason fallbackSettings 1000 750 exampleResult
    (by norm_num [evaluate, fallbackSettings, exampleResult])

/-! ### C6: first observation records a baseline, no alert -/

/-- With no baseline the evaluator never triggers. -/
theorem evaluate_no_baseline (pol : AlertSettingsDoc) (x : Option ℚ) :
    evaluate pol none x = none := by
  cases x with
  | none => rfl
  | some np =>
    simp only [evaluate]
    split_ifs <;> rfl

/-- C6: a first-ever observation with a parseable price creates no alert
and leaves the id counter alone, its price becomes the stored baseline,
and on any state an observation with a parseable price updates the stored
baseline regardless of the trigger outcome. -/
theorem c6_first_observation_no_alert (pol : AlertSettingsDoc) (st : PipelineState)
    (o : PriceObservation) (np : ℚ) (hb : st.baseline = none) (hp : o.price = some np) :
    (processObs pol st o).alerts = st.alerts ∧
    (processObs pol st o).nextId = st.nextId ∧
    (processObs pol st o).baseline = some np ∧
    (∀ (st2 : PipelineState) (o2 : PriceObservation) (np2 : ℚ), o2.price = some np2 →
      (processObs pol st2 o2).baseline = some np2) := by
  have hmain : processObs pol st o = { st with baseline := some np } := by
    simp only [processObs, hp, hb, evaluate_no_baseline]
  refine ⟨by rw [hmain], by rw [hmain], by rw [hmain], ?_⟩
  intro st2 o2 np2 hp2
  simp only [processObs, hp2]
  cases evaluate pol st2.baseline (some np2) <;> rfl

/-- C6 witness: a first observation of price 750 at time 5 against an
empty store. -/
theorem c6_first_observation_witness :
    (processObs fallbackSettings ⟨none, [], 0⟩ ⟨some 750, 5⟩).alerts = [] ∧
    (processObs fallbackSettings ⟨none, [], 0⟩ ⟨some 750, 5⟩).nextId = 0 ∧
    (processObs fallbackSettings ⟨none, [], 0⟩ ⟨some 750, 5⟩).baseline = some 750 :=
  ⟨(c6_first_observation_no_alert fallbackSettings ⟨none, [], 0⟩ ⟨some 750, 5⟩ 750
      rfl rfl).1,
   (c6_first_observation_no_alert fallbackSettings ⟨none, [], 0⟩ ⟨some 750, 5⟩ 750
      rfl rfl).2.1,
   (c6_first_observation_no_alert fallbackSettings ⟨none, [], 0⟩ ⟨some 750, 5⟩ 750
      rfl rfl).2.2.1⟩

/-! ### C5: acknowledge idempotence -/

/-- C5: acknowledging the same id twice equals acknowledging it once —
both for the client-side list update and for the store — the number of
records and the rest of the state are untouched, and after an
acknowledgement every record with that id has status acknowledged. -/
theorem c5_ack_idempotent :
    (∀ (id : Nat) (alerts : List StoredAlert),
      ackLocal id (ackLocal id alerts) = ackLocal id alerts ∧
      (ackLocal id alerts).length = alerts.length) ∧
    (∀ (id : Nat) (st : PipelineState),
      ackStore id (ackStore id st) = ackStore id st ∧
      (ackStore id st).alerts.length = st.alerts.length ∧
      (ackStore id st).baseline = st.baseline ∧
      (ackStore id st).nextId = st.nextId) ∧
    (∀ (id : Nat) (st : PipelineState),
      ((ackStore id st).alerts.all
        fun a => (a.id != id) || (a.status == "acknowledged")) = true) := by
  have hidem : ∀ id : Nat,
      ((fun a : StoredAlert =>
          if a.id = id then { a with status := "acknowledged" } else a) ∘
        fun a : StoredAlert =>
          if a.id = id then { a with status := "acknowledged" } else a) =
      fun a : StoredAlert =>
        if a.id = id then { a with status := "acknowledged" } else a := by
    intro id
    funext a
    by_cases h : a.id = id <;> simp [h]
  refine ⟨fun id alerts => ⟨?_, by simp [ackLocal]⟩,
    fun id st => ⟨?_, by simp [ackStore], rfl, rfl⟩, fun id st => ?_⟩
  · simp only [ackLocal, List.map_map, hidem]
  · simp only [ackStore, List.map_map, hidem]
  · simp only [ackStore, List.all_eq_true]
    intro a ha
    simp only [List.mem_map] at ha
    obtain ⟨b, _, rfl⟩ := ha
    by_cases h : b.id = id <;> simp [h]

/-! ### C10: totality of the price formatter -/

/-- A rupee-sign-prefixed string is never the em dash. -/
theorem rupee_sign_ne_emdash (x : String) : "₹" ++ x ≠ "—" := by
  intro h
  have h2 := congrArg String.data h
  simp [String.data_append] at h2

/-- C10: formatPrice is total and returns the em dash exactly when its
input is null or undefined; on every other input it returns the formatted
string (with the String fallback branch when formatting fails). -/
theorem c10_formatPrice_dash_iff_null :
    ∀ v : JSValue, formatPrice v = "—" ↔ v = JSValue.vnull ∨ v = JSValue.vundef := by
  intro v
  cases v with
  | vnull => simp [formatPrice]
  | vundef => simp [formatPrice]
  | vnum q =>
    simp only [formatPrice, tryFormatINR]
    constructor
    · intro h
      exfalso
      cases hn : jsNumber (JSValue.vnum q) with
      | none => rw [hn] at h; simp [formatINR] at h
      | some x =>
        rw [hn] at h
        simp only [formatINR] at h
        exact rupee_sign_ne_emdash _ (by simpa using h)
    · intro h; rcases h with h | h <;> exact absurd h (by simp)
  | vstr s =>
    simp only [formatPrice, tryFormatINR]
    constructor
    · intro h
      exfalso
      cases hn : jsNumber (JSValue.vstr s) with
      | none => rw [hn] at h; simp [formatINR] at h
      | some x =>
        rw [hn] at h
        simp only [formatINR] at h
        exact rupee_sign_ne_emdash _ (by simpa using h)
    · intro h; rcases h with h | h <;> exact absurd h (by simp)

/-! ### Deduplicator lemmas shared by C3 and C4 -/

/-- A cons whose head is open has one more open record than its tail. -/
theorem openCount_cons_open {b : StoredAlert} (l : List StoredAlert)
    (h : b.status = "open") : openCount (b :: l) = openCount l + 1 := by
  simp [openCount, List.filter_cons, h]

/-- A cons whose head is not open has as many open records as its tail. -/
theorem openCount_cons_not_open {b : StoredAlert} (l : List StoredAlert)
    (h : ¬b.status = "open") : openCount (b :: l) = openCount l := by
  simp [openCount, List.filter_cons, h]

/-- No open records means every record's status differs from open. -/
theorem openCount_eq_zero_iff (l : List StoredAlert) :
    openCount l = 0 ↔ ∀ a ∈ l, ¬a.status = "open" := by
  simp [openCount, List.length_eq_zero, List.filter_eq_nil_iff]

/-- Refreshing the first open record changes no statuses, hence no
open-record count. -/
theorem openCount_refreshFirstOpen (r : TriggerResult) (np : ℚ) (t : Nat)
    (l : List StoredAlert) : openCount (refreshFirstOpen r np t l) = openCount l := by
  induction l with
  | nil => rfl
  | cons b rest ih =>
    by_cases h : b.status = "open"
    · simp [refreshFirstOpen, h, openCount, List.filter_cons]
    · simp only [refreshFirstOpen, if_neg h]
      rw [openCount_cons_not_open _ h, openCount_cons_not_open _ h, ih]

/-- Refreshing preserves the number of records. -/
theorem refreshFirstOpen_length (r : TriggerResult) (np : ℚ) (t : Nat)
    (l : List StoredAlert) : (refreshFirstOpen r np t l).length = l.length := by
  induction l with
  | nil => rfl
  | cons b rest ih =>
    by_cases h : b.status = "open" <;> simp [refreshFirstOpen, h, ih]

/-- If the list holds an open record, the refreshed list holds an open
record carrying the latest price, changes and trigger time. -/
theorem refreshFirstOpen_exists (r : TriggerResult) (np : ℚ) (t : Nat)
    (l : List StoredAlert) (h : l.any (fun a => a.status = "open") = true) :
    ∃ a ∈ refreshFirstOpen r np t l, a.status = "open" ∧ a.new_price = np ∧
      a.percent_change = r.percent_change ∧ a.absolute_change = r.absolute_change ∧
      a.triggered_at = t := by
  induction l with
  | nil => simp at h
  | cons b rest ih =>
    by_cases hb : b.status = "open"
    · refine ⟨{ b with
                  new_price := np,
                  percent_change := r.percent_change,
                  absolute_change := r.absolute_change,
                  triggered_at := t },
        by simp [refreshFirstOpen, hb], hb, rfl, rfl, rfl, rfl⟩
    · have hrest : rest.any (fun a => a.status = "open") = true := by
        simp only [List.any_cons, Bool.or_eq_true] at h
        rcases h with h | h
        · exact absurd (by simpa using h) hb
        · exact h
      obtain ⟨a, ha, hprops⟩ := ih hrest
      exact ⟨a, by simp [refreshFirstOpen, hb, ha], hprops⟩

/-- With at most one open record, every open record of the refreshed list
carries the latest price, changes and trigger time. -/
theorem open_in_refreshFirstOpen (r : TriggerResult) (np : ℚ) (t : Nat)
    (l : List StoredAlert) (hle : openCount l ≤ 1) :
    ∀ a ∈ refreshFirstOpen r np t l, a.status = "open" →
      a.new_price = np ∧ a.percent_change = r.percent_change ∧
        a.absolute_change = r.absolute_change ∧ a.triggered_at = t := by
  induction l with
  | nil => simp [refreshFirstOpen]
  | cons b rest ih =>
    by_cases hb : b.status = "open"
    · intro a ha hopen
      rw [openCount_cons_open rest hb] at hle
      have hrest0 : openCount rest = 0 := by omega
      simp only [refreshFirstOpen, if_pos hb, List.mem_cons] at ha
      rcases ha with rfl | ha
      · exact ⟨rfl, rfl, rfl, rfl⟩
      · exact absurd hopen ((openCount_eq_zero_iff rest).mp hrest0 a ha)
    · intro a ha hopen
      rw [openCount_cons_not_open rest hb] at hle
      simp only [refreshFirstOpen, if_neg hb, List.mem_cons] at ha
      rcases ha with rfl | ha
      · exact absurd hopen hb
      · exact ih hle a ha hopen

/-- With at most one open record before, the deduplicating upsert leaves
exactly one open record. -/
theorem upsert_openCount (st : PipelineState) (r : TriggerResult) (np : ℚ) (t : Nat)
    (hle : openCount st.alerts ≤ 1) :
    openCount (upsertOpenAlert st r np t).alerts = 1 := by
  by_cases h : st.alerts.any (fun a => a.status = "open") = true
  · simp only [upsertOpenAlert, if_pos h]
    rw [openCount_refreshFirstOpen]
    obtain ⟨a, ha, hopen⟩ := List.any_eq_true.mp h
    have hmem : a ∈ st.alerts.filter (fun a => a.status = "open") :=
      List.mem_filter.mpr ⟨ha, hopen⟩
    have hpos : 0 < openCount st.alerts := by
      simpa [openCount] using List.length_pos_of_mem hmem
    omega
  · simp only [upsertOpenAlert, if_neg h]
    have hall : ∀ x ∈ st.alerts, ¬x.status = "open" := by simpa using h
    have h0 : openCount st.alerts = 0 := (openCount_eq_zero_iff st.alerts).mpr hall
    simp only [openCount, List.filter_append, List.filter_cons] at h0 ⊢
    simp [h0, List.length_eq_zero.mp h0]

/-- With at most one open record before, every open record after the
upsert carries the latest price, changes and trigger time. -/
theorem upsert_open_fields (st : PipelineState) (r : TriggerResult) (np : ℚ) (t : Nat)
    (hle : openCount st.alerts ≤ 1) :
    ∀ a ∈ (upsertOpenAlert st r np t).alerts, a.status = "open" →
      a.new_price = np ∧ a.percent_change = r.percent_change ∧
        a.absolute_change = r.absolute_change ∧ a.triggered_at = t := by
  by_cases h : st.alerts.any (fun a => a.status = "open") = true
  · simp only [upsertOpenAlert, if_pos h]
    exact open_in_refreshFirstOpen r np t st.alerts hle
  · simp only [upsertOpenAlert, if_neg h]
    intro a ha hopen
    have hall : ∀ x ∈ st.alerts, ¬x.status = "open" := by simpa using h
    rcases List.mem_append.mp ha with ha | ha
    · exact absurd hopen (hall a ha)
    · rcases List.mem_singleton.mp ha with rfl
      exact ⟨rfl, rfl, rfl, rfl⟩

/-- The upsert always leaves an open record carrying the latest price,
changes and trigger time. -/
theorem upsert_exists_open (st : PipelineState) (r : TriggerResult) (np : ℚ) (t : Nat) :
    ∃ a ∈ (upsertOpenAlert st r np t).alerts, a.status = "open" ∧ a.new_price = np ∧
      a.percent_change = r.percent_change ∧ a.absolute_change = r.absolute_change ∧
      a.triggered_at = t := by
  by_cases h : st.alerts.any (fun a => a.status = "open") = true
  · simp only [upsertOpenAlert, if_pos h]
    exact refreshFirstOpen_exists r np t st.alerts h
  · simp only [upsertOpenAlert, if_neg h]
    exact ⟨{ id := st.nextId, new_price := np, percent_change := r.percent_change,
             absolute_change := r.absolute_change, triggered_at := t, status := "open" },
      by simp, rfl, rfl, rfl, rfl, rfl⟩

/-- A qualifying observation routes the state through the upsert. -/
theorem processObs_qualify (pol : AlertSettingsDoc) (st : PipelineState)
    (o : PriceObservation) (np : ℚ) (r : TriggerResult) (hp : o.price = some np)
    (he : evaluate pol st.baseline (some np) = some r) :
    (processObs pol st o).alerts = (upsertOpenAlert st r np o.observed_at).alerts := by
  simp only [processObs, hp, he]

/-- Processing one observation keeps the open-record count at most one. -/
theorem processObs_openCount_le (pol : AlertSettingsDoc) (st : PipelineState)
    (o : PriceObservation) (hle : openCount st.alerts ≤ 1) :
    openCount (processObs pol st o).alerts ≤ 1 := by
  cases hp : o.price with
  | none => simpa [processObs, hp] using hle
  | some np =>
    cases he : evaluate pol st.baseline (some np) with
    | none => simpa [processObs, hp, he] using hle
    | some r =>
      rw [processObs_qualify pol st o np r hp he,
        upsert_openCount st r np o.observed_at hle]

/-- Folding observations keeps the open-record count at most one. -/
theorem foldl_openCount_le (pol : AlertSettingsDoc) (obss : List PriceObservation)
    (st : PipelineState) (hle : openCount st.alerts ≤ 1) :
    openCount ((obss.foldl (processObs pol) st).alerts) ≤ 1 := by
  induction obss generalizing st with
  | nil => exact hle
  | cons o rest ih => exact ih (processObs pol st o) (processObs_openCount_le pol st o hle)

/-- When an open record exists, processing an observation never adds a
record. -/
theorem processObs_length_of_open (pol : AlertSettingsDoc) (st : PipelineState)
    (o : PriceObservation) (h : openAlerts st ≠ []) :
    (processObs pol st o).alerts.length = st.alerts.length := by
  have hany : st.alerts.any (fun a => a.status = "open") = true := by
    rcases hfil : openAlerts st with _ | ⟨a, l2⟩
    · exact absurd hfil h
    · have ha : a ∈ openAlerts st := by rw [hfil]; exact List.mem_cons_self a l2
      have hmem : a ∈ st.alerts ∧ a.status = "open" := by
        simpa [openAlerts, List.mem_filter] using ha
      exact List.any_eq_true.mpr ⟨a, hmem.1, by simpa using hmem.2⟩
  cases hp : o.price with
  | none => simp [processObs, hp]
  | some np =>
    cases he : evaluate pol st.baseline (some np) with
    | none => simp [processObs, hp, he]
    | some r =>
      simp only [processObs, hp, he]
      rw [show ({ upsertOpenAlert st r np o.observed_at with baseline := some np } :
        PipelineState).alerts = (upsertOpenAlert st r np o.observed_at).alerts from rfl]
      unfold upsertOpenAlert
      rw [if_pos hany]
      exact refreshFirstOpen_length r np o.observed_at st.alerts

/-- In an all-qualifying sequence the final observation qualifies against
the state the earlier ones produced. -/
theorem allQualify_last (pol : AlertSettingsDoc) (front : List PriceObservation)
    (st : PipelineState) (o : PriceObservation)
    (h : allQualify pol st (front ++ [o]) = true) :
    ∃ np, o.price = some np ∧
      (evaluate pol (front.foldl (processObs pol) st).baseline (some np)).isSome = true := by
  induction front generalizing st with
  | nil =>
    simp only [List.nil_append, allQualify, Bool.and_eq_true] at h
    cases hp : o.price with
    | none => rw [hp] at h; exact absurd h.1 (by simp)
    | some np =>
      rw [hp] at h
      exact ⟨np, rfl, h.1⟩
  | cons p rest ih =>
    simp only [List.cons_append, allQualify, Bool.and_eq_true] at h
    simpa using ih (processObs pol st p) h.2

/-! ### C3: at most one open alert per product -/

/-- C3: processing a time-sorted sequence of qualifying observations for
one product from a state with no open alert leaves exactly one open alert
record; its price, changes and trigger time come from the most recent (by
observation time) observation evaluated against the then-current
baseline; and while an open alert exists, processing never adds a record
— only an acknowledgement re-arms creation. -/
theorem c3_single_open_alert (pol : AlertSettingsDoc) (st0 : PipelineState)
    (front : List PriceObservation) (o : PriceObservation)
    (hsorted : (front ++ [o]).Sorted obsLE)
    (hopen : openAlerts st0 = [])
    (hq : allQualify pol st0 (front ++ [o]) = true) :
    processBatch pol st0 (front ++ [o]) =
      processObs pol (front.foldl (processObs pol) st0) o ∧
    (openAlerts (processBatch pol st0 (front ++ [o]))).length = 1 ∧
    (∀ a ∈ (processBatch pol st0 (front ++ [o])).alerts, a.status = "open" →
      ∃ np r, o.price = some np ∧
        evaluate pol (front.foldl (processObs pol) st0).baseline (some np) = some r ∧
        a.new_price = np ∧ a.percent_change = r.percent_change ∧
        a.absolute_change = r.absolute_change ∧ a.triggered_at = o.observed_at) ∧
    (∀ (st : PipelineState) (o2 : PriceObservation), openAlerts st ≠ [] →
      (processObs pol st o2).alerts.length = st.alerts.length) := by
  have hbatch : processBatch pol st0 (front ++ [o]) =
      processObs pol (front.foldl (processObs pol) st0) o := by
    unfold processBatch
    rw [List.Sorted.insertionSort_eq hsorted, List.foldl_append]
    rfl
  have hle0 : openCount st0.alerts ≤ 1 := by
    have h0 : openCount st0.alerts = 0 := by
      simpa [openAlerts, openCount] using congrArg List.length hopen
    omega
  have hleN : openCount ((front.foldl (processObs pol) st0).alerts) ≤ 1 :=
    foldl_openCount_le pol front st0 hle0
  obtain ⟨np, hp, hsome⟩ := allQualify_last pol front st0 o hq
  obtain ⟨r, he⟩ := Option.isSome_iff_exists.mp hsome
  refine ⟨hbatch, ?_, ?_, fun st o2 h => processObs_length_of_open pol st o2 h⟩
  · rw [hbatch,
      show (openAlerts (processObs pol (front.foldl (processObs pol) st0) o)).length =
        openCount (processObs pol (front.foldl (processObs pol) st0) o).alerts from rfl,
      processObs_qualify pol _ o np r hp he, upsert_openCount _ r np o.observed_at hleN]
  · intro a ha hopen2
    rw [hbatch, processObs_qualify pol _ o np r hp he] at ha
    obtain ⟨h1, h2, h3, h4⟩ :=
      upsert_open_fields _ r np o.observed_at hleN a ha hopen2
    exact ⟨np, r, hp, he, h1, h2, h3, h4⟩

/-- C3 witness: from baseline 1000 with no alerts, two sorted qualifying
observations (750 then 300) leave exactly one open alert. -/
theorem c3_single_open_alert_witness :
    (openAlerts (processBatch fallbackSettings ⟨some 1000, [], 0⟩
      ([⟨some 750, 1⟩] ++ [⟨some 300, 2⟩]))).length = 1 :=
  (c3_single_open_alert fallbackSettings ⟨some 1000, [], 0⟩ [⟨some 750, 1⟩]
      ⟨some 300, 2⟩ (by decide) rfl
      (by norm_num [allQualify, processObs, evaluate, upsertOpenAlert,
        fallbackSettings])).2.1

/-! ### C4: quiet hours suppress delivery, not creation -/

/-- C4: when the local time lies inside the policy's quiet hours, a
qualifying observation invokes no notification channel, yet the store
still holds an open alert carrying the observation's price, changes and
trigger time. -/
theorem c4_quiet_hours_suppress_delivery (pol : AlertSettingsDoc) (tod : Nat)
    (st : PipelineState) (o : PriceObservation) (np : ℚ) (r : TriggerResult)
    (hq : inQuietHours pol.quiet_hours tod = true)
    (hp : o.price = some np)
    (he : evaluate pol st.baseline (some np) = some r) :
    (processObsNotify pol tod st o).2 = [] ∧
    ∃ a ∈ (processObsNotify pol tod st o).1.alerts, a.status = "open" ∧
      a.new_price = np ∧ a.percent_change = r.percent_change ∧
      a.absolute_change = r.absolute_change ∧ a.triggered_at = o.observed_at := by
  constructor
  · simp only [processObsNotify, hp, he, channelsToNotify, if_pos hq]
  · simp only [processObsNotify]
    rw [processObs_qualify pol st o np r hp he]
    exact upsert_exists_open st r np o.observed_at

/-- C4 witness: the default thresholds with an all-day quiet window at
half past midnight, baseline 1000 and a qualifying observation of 750. -/
theorem c4_quiet_hours_witness :
    (processObsNotify quietPolicy 30 ⟨some 1000, [], 0⟩ ⟨some 750, 7⟩).2 = [] ∧
    ∃ a ∈ (processObsNotify quietPolicy 30 ⟨some 1000, [], 0⟩ ⟨some 750, 7⟩).1.alerts,
      a.status = "open" ∧ a.new_price = 750 ∧
      a.percent_change = exampleResult.percent_change ∧
      a.absolute_change = exampleResult.absolute_change ∧ a.triggered_at = 7 :=
  c4_quiet_hours_suppress_delivery quietPolicy 30 ⟨some 1000, [], 0⟩ ⟨some 750, 7⟩
    750 exampleResult rfl rfl
    (by norm_num [evaluate, quietPolicy, fallbackSettings, exampleResult])

end AlertPipeline
